import Mathlib

/-
Verification development for the irys storage-network client.

The Go client (package irys) is shallowly embedded: each method of the
client becomes a pure Lean function over an explicit client value, an
explicit context value, and an explicit description of what the network
returned for each HTTP round trip.  Stateful aspects (the pointer
receiver) are made explicit by having every operation return the client
value it leaves behind, together with the list of externally visible
actions it performed (requests issued, funding transactions broadcast)
and its result.  Machine pointers, streams and goroutines do not occur
in the verified fragment; big.Int is embedded as Int.
-/

namespace Irys

/-- A metadata tag attached to an uploaded item: a name/value pair. -/
structure Tag where
  name : String
  value : String
deriving DecidableEq

/-- Modelled from the spec: types.Receipt (the types package is not under
src/).  Field set taken from the GraphQL query issued by GetReceipt:
signature, timestamp, version, deadlineHeight (§3 Receipt). -/
structure Receipt where
  signature : String
  timestamp : Int
  version : String
  deadlineHeight : Int
deriving DecidableEq

/-- The Go zero value of types.Receipt: every field at its zero. -/
def Receipt.empty : Receipt :=
  ⟨"", 0, "", 0⟩

/-- Modelled from the spec: types.Transaction (the types package is not
under src/).  Only its identity matters to the verified claims, so it is
embedded as the transaction id (§3 SignedTransaction). -/
structure Transaction where
  id : String
deriving DecidableEq

/-- Modelled from the spec: types.File without the raw byte stream (§4.5
Download returns data stream, headers, content-length, content-type). -/
structure File where
  contentLength : Int
  contentType : String
deriving DecidableEq

/-- Modelled from the spec: types.NodeInfo (the types package is not under
src/).  getTokenContractAddress reads only its Addresses map, keyed by
currency name; the map is embedded as an association list. -/
structure NodeInfo where
  addresses : List (String × String)

/-- Modelled from the spec: the currency signer capability (§6 Currency
Provider, Sign(bytes) -> signature); a rejection is encoded as none. -/
structure Signer where
  sign : List Nat → Option (List Nat)

/-- Modelled from the spec: the currency.Currency interface (the currency
package is not under src/): a name, a public key and a signer (§6). -/
structure Currency where
  name : String
  publicKey : String
  signer : Signer

/-- The Client struct of the source: node endpoint (network), selected
currency, resolved contract address, debug flag, and the HTTP client
configuration installed by New.  The mutex and logger carry no data
relevant to any claim beyond the debug flag. -/
structure Client where
  network : String
  currency : Currency
  contract : String
  debug : Bool
  httpTimeoutSeconds : Nat
  retryMax : Nat
  retryWaitMinSeconds : Nat
  retryWaitMaxSeconds : Nat

/-- The caller's context, reduced to the one observable the embedded code
inspects: whether ctx.Done() is ready when a response is examined. -/
structure Ctx where
  cancelled : Bool

/-- Classification of an HTTP response status as the embedded statusCheck
distinguishes it: success, a node rejection of the selected currency, or
any other failing status. -/
inductive RespClass
  | ok
  | unrecognizedCurrency
  | otherFailure
deriving DecidableEq

/-- Outcome of decoding a response body into an expected shape: either the
body was malformed or a value of the expected shape was produced.  This
stands for the decodeBody helper, which is not under src/. -/
inductive DecodeResult (α : Type)
  | malformed
  | value (a : α)

/-- An HTTP response as the embedded operations examine it: a status
classification and a decoded body. -/
structure HttpResp (α : Type) where
  cls : RespClass
  body : DecodeResult α

/-- Outcome of one Do call of the resilient transport: a transport-level
failure, or a response to examine. -/
inductive DoResult (α : Type)
  | fail
  | ok (r : HttpResp α)

/-- Outcome of the Download round trip: transport failure, or a response
with a status classification and the file view built from its headers. -/
inductive DownloadResult
  | fail
  | ok (cls : RespClass) (f : File)

/-- The error taxonomy the embedded operations return (§7). -/
inductive IrysError
  | networkError
  | badResponse
  | currencyInvalid
  | cancelled
  | signingFailed
  | sizeOutOfRange
deriving DecidableEq

/-- Result of running embedded Go code that may panic: a value, a returned
error, or a runtime panic (used where the source indexes a slice without
a bounds guard). -/
inductive Outcome (α : Type)
  | ok (a : α)
  | err (e : IrysError)
  | panics
deriving DecidableEq

/-- The format constant pricePath of the source, applied: the string
percent-s slash price slash percent-s slash percent-v, filled with the
network, the currency name and the byte size. -/
def pricePath (network name : String) (fileSize : Int) : String :=
  network ++ "/price/" ++ name ++ "/" ++ toString fileSize

/-- The format constant uploadPath of the source, applied: network slash
tx slash currency name. -/
def uploadPath (network name : String) : String :=
  network ++ "/tx/" ++ name

/-- The format constant txPath of the source, applied: gateway slash tx
slash transaction id. -/
def txPath (gateway txId : String) : String :=
  gateway ++ "/tx/" ++ txId

/-- The format constant downloadPath of the source, applied: gateway
slash transaction id. -/
def downloadPath (gateway txId : String) : String :=
  gateway ++ "/" ++ txId

/-- The format constant sendTxToBalance of the source, applied.  Note the
source fixes the final path segment to the literal string matic. -/
def sendTxToBalance (network : String) : String :=
  network ++ "/account/balance/matic"

/-- The format constant getBalance of the source, applied.  Note the
source fixes the currency segment to the literal string matic; only the
address query parameter varies. -/
def getBalance (network address : String) : String :=
  network ++ "/account/balance/matic?address=" ++ address

/-- The format constant graphql of the source, applied. -/
def graphql (network : String) : String :=
  network ++ "/graphql"

/-- Modelled from the spec: the default gateway base used by Download and
GetMetaData; its constant definition is not under src/ (§6 Gateway HTTP
API). -/
def defaultGateway : String :=
  "https://gateway.irys.xyz"

/-- Modelled from the spec: the statusCheck helper is not under src/.
Per §4.1 and §7 it maps a successful status to no error, a node
rejection of the selected currency to InvalidCurrency, and any other
failing status to NetworkError (5xx-class failures are transport-level
per §5). -/
def statusCheck : RespClass → Option IrysError
  | .ok => none
  | .unrecognizedCurrency => some .currencyInvalid
  | .otherFailure => some .networkError

/-- Modelled from the spec: the canonical unsigned encoding of one tag,
name and value length-prefixed (§4.3, length-prefixed tag list with
order preserved). -/
def encodeTag (t : Tag) : List Nat :=
  t.name.length :: ((t.name.data.map Char.toNat) ++
    t.value.length :: (t.value.data.map Char.toNat))

/-- Modelled from the spec: the canonical unsigned byte layout of a data
item (§4.3): length-prefixed tag list in insertion order followed by the
payload bytes; the owner key is folded into the signer abstraction. -/
def encodeItem (tags : List Tag) (payload : List Nat) : List Nat :=
  tags.length :: ((tags.map encodeTag).flatten ++ payload)

/-- Modelled from the spec: the signFile helper (Data Item Codec and
Signer, §4.3; not under src/): encodes the payload with its tags and
applies the currency signer; a signer rejection is SigningFailed. -/
def signFile (file : List Nat) (s : Signer) (isChunk : Bool) (tags : List Tag) :
    Except IrysError (List Nat) :=
  match s.sign (encodeItem tags file) with
  | some b => .ok b
  | none => .error .signingFailed

/-- The externally visible actions an operation can perform: requests
issued against the node or gateway, and on-chain funding transactions
broadcast by the Currency Provider. -/
inductive Action
  | priceQuery (url : String)
  | balanceQuery (url : String)
  | infoQuery (url : String)
  | fundTx (amount : Int)
  | fundConfirm (url : String) (txId : String)
  | uploadPost (url : String)
  | downloadGet (url : String)
  | metaGet (url : String)
  | receiptQuery (url : String)
  | chunkPost (url : String)
deriving DecidableEq

/-- Whether an action is an on-chain funding transaction broadcast. -/
def Action.isFundTx : Action → Bool
  | .fundTx _ => true
  | _ => false

/-- Whether an action is a funding-confirmation submission to the node. -/
def Action.isFundConfirm : Action → Bool
  | .fundConfirm _ _ => true
  | _ => false

/-- Whether an action is a price query. -/
def Action.isPriceQuery : Action → Bool
  | .priceQuery _ => true
  | _ => false

/-- Whether an action is a balance query. -/
def Action.isBalanceQuery : Action → Bool
  | .balanceQuery _ => true
  | _ => false

/-- GetPrice of the source: builds the price URL from the network, the
currency name and the file size, issues the GET, and then either
propagates a transport failure, the context's cancellation error, a
status error, a decode failure, or the decoded integer price. -/
def GetPrice (c : Client) (ctx : Ctx) (fileSize : Int) (env : DoResult Int) :
    Client × List Action × Except IrysError Int :=
  (c, [Action.priceQuery (pricePath c.network c.currency.name fileSize)],
    match env with
    | .fail => .error .networkError
    | .ok r =>
      if ctx.cancelled then .error .cancelled
      else
        match statusCheck r.cls with
        | some e => .error e
        | none =>
          match r.body with
          | .malformed => .error .badResponse
          | .value v => .ok v)

/-- GetBalance of the source: derives the query address from the selected
currency's public key through the external PubkeyToAddress function
(passed in as pta), builds the balance URL from the getBalance format
constant, issues the GET, and examines the response as GetPrice does.
The decoded BalanceResponse is embedded as its integer value. -/
def GetBalance (c : Client) (ctx : Ctx) (pta : String → String) (env : DoResult Int) :
    Client × List Action × Except IrysError Int :=
  (c, [Action.balanceQuery (getBalance c.network (pta c.currency.publicKey))],
    match env with
    | .fail => .error .networkError
    | .ok r =>
      if ctx.cancelled then .error .cancelled
      else
        match statusCheck r.cls with
        | some e => .error e
        | none =>
          match r.body with
          | .malformed => .error .badResponse
          | .value v => .ok v)

/-- TopUpBalance of the source: asks the Currency Provider to construct
and broadcast a funding transaction for the given amount (createTx is
not under src/, so its outcome is the ctR argument, per §6
CreateFundingTx), then POSTs the obtained hash to the node's
funding-confirmation endpoint and examines the response.  A broadcast
failure returns before any action; a successful broadcast is recorded
as a fundTx action followed by the confirmation POST. -/
def TopUpBalance (c : Client) (ctx : Ctx) (amount : Int)
    (ctR : Except IrysError String) (env : DoResult Unit) :
    Client × List Action × Option IrysError :=
  match ctR with
  | .error e => (c, [], some e)
  | .ok hash =>
    (c, [Action.fundTx amount, Action.fundConfirm (sendTxToBalance c.network) hash],
      match env with
      | .fail => some .networkError
      | .ok r =>
        if ctx.cancelled then some .cancelled
        else statusCheck r.cls)

/-- Download of the source: GETs the gateway URL for the transaction id
and returns the file view built from the response, or the transport,
cancellation or status error. -/
def Download (c : Client) (ctx : Ctx) (txId : String) (env : DownloadResult) :
    Client × List Action × Except IrysError File :=
  (c, [Action.downloadGet (downloadPath defaultGateway txId)],
    match env with
    | .fail => .error .networkError
    | .ok cls f =>
      if ctx.cancelled then .error .cancelled
      else
        match statusCheck cls with
        | some e => .error e
        | none => .ok f)

/-- GetMetaData of the source: GETs the gateway tx URL for the
transaction id and decodes the transaction metadata. -/
def GetMetaData (c : Client) (ctx : Ctx) (txId : String) (env : DoResult Transaction) :
    Client × List Action × Except IrysError Transaction :=
  (c, [Action.metaGet (txPath defaultGateway txId)],
    match env with
    | .fail => .error .networkError
    | .ok r =>
      if ctx.cancelled then .error .cancelled
      else
        match statusCheck r.cls with
        | some e => .error e
        | none =>
          match r.body with
          | .malformed => .error .badResponse
          | .value tx => .ok tx)

/-- Modelled from the spec: types.ReceiptResponse (the types package is
not under src/), shaped after the GraphQL query of GetReceipt:
data.transactions.edges, each edge holding a node with a receipt.  The
edges field is an Option to model the Go distinction between a nil
slice (absent or null in the JSON) and a present, possibly empty,
slice. -/
structure EdgeNode where
  receipt : Receipt
deriving DecidableEq

/-- One edge of the GraphQL receipt response. -/
structure Edge where
  node : EdgeNode
deriving DecidableEq

/-- The transactions object of the GraphQL receipt response. -/
structure Transactions where
  edges : Option (List Edge)
deriving DecidableEq

/-- The data object of the GraphQL receipt response. -/
structure RData where
  transactions : Transactions
deriving DecidableEq

/-- The full GraphQL receipt response body. -/
structure ReceiptResponse where
  data : RData
deriving DecidableEq

/-- GetReceipt of the source: POSTs the GraphQL receipt query to the
node, then examines the response.  The source guards the edges slice
only against nil before indexing element zero, so a response whose
edges list is present but empty drives the code into an out-of-range
index: this is embedded as the panics outcome.  A nil edges slice
returns the zero Receipt with no error. -/
def GetReceipt (c : Client) (ctx : Ctx) (txId : String) (env : DoResult ReceiptResponse) :
    Client × List Action × Outcome Receipt :=
  (c, [Action.receiptQuery (graphql c.network)],
    match env with
    | .fail => .err .networkError
    | .ok r =>
      if ctx.cancelled then .err .cancelled
      else
        match statusCheck r.cls with
        | some e => .err e
        | none =>
          match r.body with
          | .malformed => .err .badResponse
          | .value response =>
            match response.data.transactions.edges with
            | some es =>
              match es with
              | [] => .panics
              | e :: _ => .ok e.node.receipt
            | none => .ok Receipt.empty)

/-- The unexported upload helper of the source: signs the payload with
the currency signer (signFile), POSTs the signed bytes to the given
URL, and decodes the accepted transaction.  A signing failure returns
before any request is issued. -/
def upload (c : Client) (ctx : Ctx) (url : String) (file : List Nat) (tags : List Tag)
    (env : DoResult Transaction) :
    Client × List Action × Except IrysError Transaction :=
  (c,
    match signFile file c.currency.signer false tags with
    | .error e => ([], .error e)
    | .ok _b =>
      ([Action.uploadPost url],
        match env with
        | .fail => .error .networkError
        | .ok r =>
          if ctx.cancelled then .error .cancelled
          else
            match statusCheck r.cls with
            | some e => .error e
            | none =>
              match r.body with
              | .malformed => .error .badResponse
              | .value tx => .ok tx))

/-- Upload of the source: builds the upload URL from the network and the
currency name and delegates directly to the unexported upload helper,
with no price, balance or funding step. -/
def Upload (c : Client) (ctx : Ctx) (file : List Nat) (tags : List Tag)
    (env : DoResult Transaction) :
    Client × List Action × Except IrysError Transaction :=
  upload c ctx (uploadPath c.network c.currency.name) file tags env

/-- BasicUpload of the source: obtains the price for the payload length,
reads the balance, tops up with exactly the quoted price when the
balance compares strictly below it, and then delegates to the
unexported upload helper with the same URL Upload uses.  Each
sub-operation is driven by its own network environment argument. -/
def BasicUpload (c : Client) (ctx : Ctx) (pta : String → String)
    (file : List Nat) (tags : List Tag)
    (envP : DoResult Int) (envB : DoResult Int)
    (ctR : Except IrysError String) (envT : DoResult Unit)
    (envU : DoResult Transaction) :
    Client × List Action × Except IrysError Transaction :=
  (c,
    let url := uploadPath c.network c.currency.name
    let rp := (GetPrice c ctx (Int.ofNat file.length) envP).2
    match rp.2 with
    | .error e => (rp.1, .error e)
    | .ok price =>
      let rb := (GetBalance c ctx pta envB).2
      match rb.2 with
      | .error e => (rp.1 ++ rb.1, .error e)
      | .ok balance =>
        if balance < price then
          let rt := (TopUpBalance c ctx price ctR envT).2
          match rt.2 with
          | some e => (rp.1 ++ rb.1 ++ rt.1, .error e)
          | none =>
            let ru := (upload c ctx url file tags envU).2
            (rp.1 ++ rb.1 ++ rt.1 ++ ru.1, ru.2)
        else
          let ru := (upload c ctx url file tags envU).2
          (rp.1 ++ rb.1 ++ ru.1, ru.2))

/-- The minimum ChunkUpload payload size: 500 KB (§4.4). -/
def minChunkSize : Nat := 500 * 1024

/-- The maximum ChunkUpload payload size: 95 MB (§4.4). -/
def maxChunkSize : Nat := 95 * 1024 * 1024

/-- Modelled from the spec: ChunkUpload's implementation is not under
src/ (only its interface declaration is).  Per §4.4 it fails fast with
SizeOutOfRange, transmitting nothing, when the payload size is below
the 500 KB minimum or above the 95 MB maximum; otherwise it runs the
chunked session protocol, abstracted here as the run argument. -/
def ChunkUpload (c : Client) (ctx : Ctx) (file : List Nat) (chunkId : String)
    (tags : List Tag) (run : List Action × Except IrysError Transaction) :
    Client × List Action × Except IrysError Transaction :=
  if file.length < minChunkSize ∨ maxChunkSize < file.length then
    (c, [], .error .sizeOutOfRange)
  else
    (c, run.1, run.2)

/-- getTokenContractAddress of the source: GETs the node info endpoint,
checks the status, decodes the NodeInfo body, and looks the currency's
name up in the advertised address map; a missing entry is the
invalid-currency error. -/
def getTokenContractAddress (node : String) (cur : Currency) (env : DoResult NodeInfo) :
    Except IrysError String :=
  match env with
  | .fail => .error .networkError
  | .ok r =>
    match statusCheck r.cls with
    | some e => .error e
    | none =>
      match r.body with
      | .malformed => .error .badResponse
      | .value info =>
        match info.addresses.lookup cur.name with
        | some v => .ok v
        | none => .error .currencyInvalid

/-- New of the source: installs the HTTP client configuration (300 s
timeout, 5 retries, 1 s to 30 s backoff), stores the node and currency,
resolves the token contract address from the node info endpoint, and
fails without returning a client when that resolution fails. -/
def New (node : String) (cur : Currency) (debug : Bool) (env : DoResult NodeInfo) :
    Except IrysError Client :=
  match getTokenContractAddress node cur env with
  | .error e => .error e
  | .ok contract =>
    .ok { network := node, currency := cur, contract := contract, debug := debug,
          httpTimeoutSeconds := 300, retryMax := 5,
          retryWaitMinSeconds := 1, retryWaitMaxSeconds := 30 }

/-- Close of the source: releases idle transport connections; it reads
the client and assigns no field. -/
def Close (c : Client) : Client :=
  c

/-- A concrete matic currency value with an always-accepting signer, for
witnesses and concrete evaluations. -/
def maticDemo : Currency :=
  { name := "matic", publicKey := "pkM", signer := ⟨fun b => some b⟩ }

/-- A concrete non-matic currency value, for the balance-endpoint
counterexample. -/
def ethDemo : Currency :=
  { name := "ethereum", publicKey := "pkE", signer := ⟨fun b => some b⟩ }

/-- A concrete client over the matic currency, as New would build it. -/
def cDemo : Client :=
  { network := "https://node1.irys.xyz", currency := maticDemo, contract := "0xC",
    debug := false, httpTimeoutSeconds := 300, retryMax := 5,
    retryWaitMinSeconds := 1, retryWaitMaxSeconds := 30 }

/-- The same concrete client with the ethereum currency selected. -/
def cEth : Client :=
  { cDemo with currency := ethDemo }

/-- C1: with the price quoted as p and the balance read as b, BasicUpload
queries the price for the payload's byte length first, reads the balance
second, broadcasts a funding transaction if and only if b is strictly
below p — and then exactly one, for exactly the quoted price p — and
only after the optional funding delegates to the single-shot upload
POST. -/
theorem basicUpload_funds_iff_balance_below_price
    (c : Client) (pta : String → String) (file : List Nat) (tags : List Tag)
    (p b : Int) (hash : String) (envU : DoResult Transaction) (sb : List Nat)
    (hs : c.currency.signer.sign (encodeItem tags file) = some sb) :
    let tr := (BasicUpload c ⟨false⟩ pta file tags
        (DoResult.ok ⟨RespClass.ok, DecodeResult.value p⟩)
        (DoResult.ok ⟨RespClass.ok, DecodeResult.value b⟩)
        (Except.ok hash)
        (DoResult.ok ⟨RespClass.ok, DecodeResult.value ()⟩) envU).2.1
    (tr.filter Action.isFundTx = if b < p then [Action.fundTx p] else []) ∧
    tr = Action.priceQuery (pricePath c.network c.currency.name (Int.ofNat file.length)) ::
      Action.balanceQuery (getBalance c.network (pta c.currency.publicKey)) ::
      ((if b < p then [Action.fundTx p, Action.fundConfirm (sendTxToBalance c.network) hash]
        else []) ++ [Action.uploadPost (uploadPath c.network c.currency.name)]) := by
  intro tr
  show (List.filter Action.isFundTx tr = if b < p then [Action.fundTx p] else []) ∧ _
  by_cases hbp : b < p <;>
    simp [tr, BasicUpload, GetPrice, GetBalance, TopUpBalance, upload, signFile, hs,
      statusCheck, hbp, Action.isFundTx]

/-- C1 witness: the funding policy theorem instantiated at the concrete
client, a one-byte payload, price 5 and balance 2. -/
theorem basicUpload_funding_witness :
    cDemo.currency.signer.sign (encodeItem [] [7]) = some (encodeItem [] [7]) ∧
    (let tr := (BasicUpload cDemo ⟨false⟩ (fun s => s) [7] []
        (DoResult.ok ⟨RespClass.ok, DecodeResult.value 5⟩)
        (DoResult.ok ⟨RespClass.ok, DecodeResult.value 2⟩)
        (Except.ok ("0xH"))
        (DoResult.ok ⟨RespClass.ok, DecodeResult.value ()⟩)
        (DoResult.ok ⟨RespClass.ok, DecodeResult.value ⟨"tid"⟩⟩)).2.1
     (tr.filter Action.isFundTx = if (2 : Int) < 5 then [Action.fundTx 5] else []) ∧
     tr = Action.priceQuery
        (pricePath cDemo.network cDemo.currency.name (Int.ofNat (List.length [7]))) ::
       Action.balanceQuery (getBalance cDemo.network ((fun s => s) cDemo.currency.publicKey)) ::
       ((if (2 : Int) < 5 then
           [Action.fundTx 5, Action.fundConfirm (sendTxToBalance cDemo.network) ("0xH")]
         else []) ++ [Action.uploadPost (uploadPath cDemo.network cDemo.currency.name)])) :=
  ⟨rfl, basicUpload_funds_iff_balance_below_price cDemo (fun s => s) [7] [] 5 2 ("0xH")
    (DoResult.ok ⟨RespClass.ok, DecodeResult.value ⟨"tid"⟩⟩) (encodeItem [] [7]) rfl⟩

/-- C6: Upload performs no price query, no balance query and no funding
action for any payload, tag list, context and network behaviour, and it
is literally the delegation BasicUpload ends with: the unexported upload
helper applied to the same upload URL. -/
theorem upload_skips_funding
    (c : Client) (ctx : Ctx) (file : List Nat) (tags : List Tag)
    (env : DoResult Transaction) :
    Upload c ctx file tags env =
      upload c ctx (uploadPath c.network c.currency.name) file tags env ∧
    (Upload c ctx file tags env).2.1.filter
      (fun a => a.isPriceQuery || a.isBalanceQuery || a.isFundTx || a.isFundConfirm) = [] := by
  refine ⟨rfl, ?_⟩
  unfold Upload upload signFile
  cases h : c.currency.signer.sign (encodeItem tags file) <;>
    simp [Action.isPriceQuery, Action.isBalanceQuery, Action.isFundTx, Action.isFundConfirm]

/-- C5: GetPrice distinguishes the three failure classes of the spec: a
node response rejecting the selected currency yields InvalidCurrency
whatever the body holds, a transport failure yields NetworkError, and a
successful status with a malformed body yields BadResponse. -/
theorem getPrice_error_taxonomy (c : Client) (n : Int) (bP : DecodeResult Int) :
    (GetPrice c ⟨false⟩ n (DoResult.ok ⟨RespClass.unrecognizedCurrency, bP⟩)).2.2 =
      Except.error IrysError.currencyInvalid ∧
    (GetPrice c ⟨false⟩ n DoResult.fail).2.2 = Except.error IrysError.networkError ∧
    (GetPrice c ⟨false⟩ n (DoResult.ok ⟨RespClass.ok, DecodeResult.malformed⟩)).2.2 =
      Except.error IrysError.badResponse :=
  ⟨rfl, rfl, rfl⟩

/-- C2 counterexample: with the ethereum currency selected, neither the
balance query URL nor the funding-confirmation URL is parameterized by
the currency name — the claimed currency-parameterized URLs are not the
ones the client requests, because both carry the fixed segment matic. -/
theorem balance_urls_not_currency_parameterized :
    ¬ ((GetBalance cEth ⟨false⟩ (fun _ => "0xABC") DoResult.fail).2.1 =
        [Action.balanceQuery
          (cEth.network ++ "/account/balance/" ++ cEth.currency.name ++ "?address=0xABC")]) ∧
    ¬ ((TopUpBalance cEth ⟨false⟩ 5 (Except.ok ("0xH")) DoResult.fail).2.1 =
        [Action.fundTx 5, Action.fundConfirm
          (cEth.network ++ "/account/balance/" ++ cEth.currency.name) ("0xH")]) := by
  constructor <;> decide

/-- C2 amended: for every client, context and network behaviour, the
balance query hits node/account/balance/matic with the address derived
from the selected currency's public key, and the funding confirmation
POSTs the obtained transaction hash to node/account/balance/matic: the
currency segment of both URLs is the fixed name matic, independent of
the selected currency, while the address still varies with the selected
currency's public key. -/
theorem balance_and_funding_urls_fixed_matic
    (c : Client) (ctx : Ctx) (pta : String → String) (env : DoResult Int)
    (amount : Int) (hash : String) (envT : DoResult Unit) :
    (GetBalance c ctx pta env).2.1 =
      [Action.balanceQuery
        (c.network ++ "/account/balance/matic?address=" ++ pta c.currency.publicKey)] ∧
    (TopUpBalance c ctx amount (Except.ok hash) envT).2.1 =
      [Action.fundTx amount,
       Action.fundConfirm (c.network ++ "/account/balance/matic") hash] :=
  ⟨rfl, rfl⟩

/-- C3: at the failing input — a transport-successful GraphQL response
whose decoded edges list is present but empty, which is what an
edge-less JSON result decodes to — GetReceipt runs into the unguarded
index of edge zero and panics instead of returning the empty Receipt
with no error; only a response whose edges field is absent or null
produces the documented soft-miss. -/
theorem getReceipt_soft_miss_panics :
    (GetReceipt cDemo ⟨false⟩ ("missTx")
      (DoResult.ok ⟨RespClass.ok, DecodeResult.value ⟨⟨⟨some []⟩⟩⟩⟩)).2.2 =
      Outcome.panics ∧
    (GetReceipt cDemo ⟨false⟩ ("missTx")
      (DoResult.ok ⟨RespClass.ok, DecodeResult.value ⟨⟨⟨none⟩⟩⟩⟩)).2.2 =
      Outcome.ok Receipt.empty :=
  ⟨rfl, rfl⟩

/-- C4: the never-panics claim fails on the code: GetReceipt panics on a
well-formed, transport-successful response whose edges list is present
and empty, because the source guards the slice only against nil before
indexing element zero. -/
theorem getReceipt_can_panic :
    (GetReceipt cEth ⟨false⟩ ("otherTx")
      (DoResult.ok ⟨RespClass.ok, DecodeResult.value ⟨⟨⟨some []⟩⟩⟩⟩)).2.2 =
      Outcome.panics :=
  rfl

/-- C7: with a cancelled context and a response delivered by the
transport, every operation returns the cancellation error and no result
value: GetPrice, GetBalance, TopUpBalance, Download, GetMetaData,
GetReceipt, BasicUpload and Upload (the latter under a signer that
accepts the payload, since a signing rejection returns before any
request is issued). -/
theorem cancelled_ctx_propagates
    (c : Client) (pta : String → String) (n amount : Int) (tA tB tC : String)
    (file : List Nat) (tags : List Tag) (hash : String) (sb : List Nat)
    (rP rB : HttpResp Int) (rT : HttpResp Unit) (rM rU : HttpResp Transaction)
    (rR : HttpResp ReceiptResponse) (cls : RespClass) (f : File)
    (hs : c.currency.signer.sign (encodeItem tags file) = some sb) :
    (GetPrice c ⟨true⟩ n (DoResult.ok rP)).2.2 = Except.error IrysError.cancelled ∧
    (GetBalance c ⟨true⟩ pta (DoResult.ok rB)).2.2 = Except.error IrysError.cancelled ∧
    (TopUpBalance c ⟨true⟩ amount (Except.ok hash) (DoResult.ok rT)).2.2 =
      some IrysError.cancelled ∧
    (Download c ⟨true⟩ tA (DownloadResult.ok cls f)).2.2 = Except.error IrysError.cancelled ∧
    (GetMetaData c ⟨true⟩ tB (DoResult.ok rM)).2.2 = Except.error IrysError.cancelled ∧
    (GetReceipt c ⟨true⟩ tC (DoResult.ok rR)).2.2 = Outcome.err IrysError.cancelled ∧
    (BasicUpload c ⟨true⟩ pta file tags (DoResult.ok rP) (DoResult.ok rB) (Except.ok hash)
      (DoResult.ok rT) (DoResult.ok rU)).2.2 = Except.error IrysError.cancelled ∧
    (Upload c ⟨true⟩ file tags (DoResult.ok rU)).2.2 = Except.error IrysError.cancelled := by
  refine ⟨rfl, rfl, rfl, rfl, rfl, rfl, ?_, ?_⟩
  · simp [BasicUpload, GetPrice]
  · simp [Upload, upload, signFile, hs]

/-- C7 witness: the cancellation theorem instantiated at the concrete
client and concrete responses for all eight operations. -/
theorem cancelled_ctx_witness :
    cDemo.currency.signer.sign (encodeItem [] []) = some (encodeItem [] []) ∧
    ((GetPrice cDemo ⟨true⟩ 1 (DoResult.ok ⟨RespClass.ok, DecodeResult.value 5⟩)).2.2 =
        Except.error IrysError.cancelled ∧
     (GetBalance cDemo ⟨true⟩ (fun s => s)
        (DoResult.ok ⟨RespClass.ok, DecodeResult.value 2⟩)).2.2 =
        Except.error IrysError.cancelled ∧
     (TopUpBalance cDemo ⟨true⟩ 5 (Except.ok ("h"))
        (DoResult.ok ⟨RespClass.ok, DecodeResult.value ()⟩)).2.2 =
        some IrysError.cancelled ∧
     (Download cDemo ⟨true⟩ ("a") (DownloadResult.ok RespClass.ok ⟨0, ""⟩)).2.2 =
        Except.error IrysError.cancelled ∧
     (GetMetaData cDemo ⟨true⟩ ("b")
        (DoResult.ok ⟨RespClass.ok, DecodeResult.value ⟨"t1"⟩⟩)).2.2 =
        Except.error IrysError.cancelled ∧
     (GetReceipt cDemo ⟨true⟩ ("c")
        (DoResult.ok ⟨RespClass.ok, DecodeResult.value ⟨⟨⟨none⟩⟩⟩⟩)).2.2 =
        Outcome.err IrysError.cancelled ∧
     (BasicUpload cDemo ⟨true⟩ (fun s => s) [] []
        (DoResult.ok ⟨RespClass.ok, DecodeResult.value 5⟩)
        (DoResult.ok ⟨RespClass.ok, DecodeResult.value 2⟩) (Except.ok ("h"))
        (DoResult.ok ⟨RespClass.ok, DecodeResult.value ()⟩)
        (DoResult.ok ⟨RespClass.ok, DecodeResult.value ⟨"t2"⟩⟩)).2.2 =
        Except.error IrysError.cancelled ∧
     (Upload cDemo ⟨true⟩ [] []
        (DoResult.ok ⟨RespClass.ok, DecodeResult.value ⟨"t2"⟩⟩)).2.2 =
        Except.error IrysError.cancelled) :=
  ⟨rfl, cancelled_ctx_propagates cDemo (fun s => s) 1 5 ("a") ("b") ("c") [] [] ("h")
    (encodeItem [] []) ⟨RespClass.ok, DecodeResult.value 5⟩
    ⟨RespClass.ok, DecodeResult.value 2⟩ ⟨RespClass.ok, DecodeResult.value ()⟩
    ⟨RespClass.ok, DecodeResult.value ⟨"t1"⟩⟩ ⟨RespClass.ok, DecodeResult.value ⟨"t2"⟩⟩
    ⟨RespClass.ok, DecodeResult.value ⟨⟨⟨none⟩⟩⟩⟩ RespClass.ok ⟨0, ""⟩ rfl⟩

/-- C8: every operation returns the client it was given — no field of
the configuration snapshot (node endpoint, currency, contract address,
debug flag, HTTP client configuration) is mutated by any interface
operation, Close included. -/
theorem ops_preserve_client
    (c : Client) (ctx : Ctx) (pta : String → String) (n amount : Int)
    (envP envB : DoResult Int) (ctR : Except IrysError String) (envT : DoResult Unit)
    (tA tB tC chunkId : String) (envD : DownloadResult) (envM envU : DoResult Transaction)
    (envR : DoResult ReceiptResponse) (file : List Nat) (tags : List Tag)
    (run : List Action × Except IrysError Transaction) :
    (GetPrice c ctx n envP).1 = c ∧
    (GetBalance c ctx pta envB).1 = c ∧
    (TopUpBalance c ctx amount ctR envT).1 = c ∧
    (Download c ctx tA envD).1 = c ∧
    (GetMetaData c ctx tB envM).1 = c ∧
    (GetReceipt c ctx tC envR).1 = c ∧
    (BasicUpload c ctx pta file tags envP envB ctR envT envU).1 = c ∧
    (Upload c ctx file tags envU).1 = c ∧
    (ChunkUpload c ctx file chunkId tags run).1 = c ∧
    Close c = c := by
  refine ⟨rfl, rfl, ?_, rfl, rfl, rfl, rfl, rfl, ?_, rfl⟩
  · cases ctR <;> rfl
  · unfold ChunkUpload
    split <;> rfl

/-- C9: a payload below the 500 KB minimum or above the 95 MB maximum
makes ChunkUpload fail with SizeOutOfRange while performing no action at
all — nothing is transmitted. -/
theorem chunkUpload_size_guard
    (c : Client) (ctx : Ctx) (file : List Nat) (chunkId : String) (tags : List Tag)
    (run : List Action × Except IrysError Transaction)
    (h : file.length < minChunkSize ∨ maxChunkSize < file.length) :
    ChunkUpload c ctx file chunkId tags run =
      (c, [], Except.error IrysError.sizeOutOfRange) := by
  unfold ChunkUpload
  rw [if_pos h]

/-- C9 witness: the size guard theorem at a ten-byte payload, far below
the 500 KB minimum. -/
theorem chunkUpload_size_guard_witness :
    ((List.replicate 10 0 : List Nat).length < minChunkSize ∨
      maxChunkSize < (List.replicate 10 0 : List Nat).length) ∧
    ChunkUpload cDemo ⟨false⟩ (List.replicate 10 0) ("cid") []
        ([], Except.error IrysError.networkError) =
      (cDemo, [], Except.error IrysError.sizeOutOfRange) :=
  ⟨Or.inl (by decide),
   chunkUpload_size_guard cDemo ⟨false⟩ (List.replicate 10 0) ("cid") []
     ([], Except.error IrysError.networkError) (Or.inl (by decide))⟩

/-- C10: New resolves the contract address during construction from the
node's advertised address map: when the map holds no entry for the
currency's name the construction fails with the invalid-currency error
and returns no client, and when the entry exists the constructed
client's contract field is exactly the advertised address. -/
theorem new_resolves_contract_or_fails
    (node : String) (cur : Currency) (dbg : Bool) (info : NodeInfo) :
    New node cur dbg (DoResult.ok ⟨RespClass.ok, DecodeResult.value info⟩) =
      match info.addresses.lookup cur.name with
      | some addr =>
        Except.ok { network := node, currency := cur, contract := addr, debug := dbg,
                    httpTimeoutSeconds := 300, retryMax := 5,
                    retryWaitMinSeconds := 1, retryWaitMaxSeconds := 30 }
      | none => Except.error IrysError.currencyInvalid := by
  cases h : info.addresses.lookup cur.name <;>
    simp [New, getTokenContractAddress, statusCheck, h]

end Irys
